import Mathlib

/-!
Verification of the data-aggregation pipeline of `dashboard.py`.

The file gives a shallow embedding of the pipeline: the two API-client
functions (`fetch_shopping_trend`, `fetch_search_results`), the keyword
parsing, the per-keyword result dictionaries, the EDA statistics step
(including its in-place price coercion), the detailed-visualization step
(combined shop view, mean price, mall frequencies, price bins) and the
TF-IDF keyword-salience extraction.  HTTP traffic is modelled by a response
value (status code plus an optional parsed body, `none` standing for an
unparseable payload); Python exceptions are modelled by `Except`; pandas
`NaN` cells are modelled by `Option` values.
-/

/-! ### Generic helpers -/

/-- Deduplication worker: drop the elements already `seen`, keep the first
occurrence of each new element. -/
def dedupFirstAux {α : Type} [DecidableEq α] : List α → List α → List α
  | [], _ => []
  | x :: xs, seen =>
    if x ∈ seen then dedupFirstAux xs seen else x :: dedupFirstAux xs (x :: seen)

/-- First-occurrence deduplication: the key list of a Python `dict` built by a
comprehension over `l` (later duplicates do not add keys and do not move the
key forward). -/
def dedupFirst {α : Type} [DecidableEq α] (l : List α) : List α :=
  dedupFirstAux l []

theorem mem_dedupFirstAux {α : Type} [DecidableEq α] (a : α) :
    ∀ (l seen : List α), a ∈ dedupFirstAux l seen ↔ a ∈ l ∧ a ∉ seen := by
  intro l
  induction l with
  | nil => intro seen; simp [dedupFirstAux]
  | cons x xs ih =>
    intro seen
    rw [dedupFirstAux]
    by_cases hx : x ∈ seen
    · rw [if_pos hx, ih seen]
      constructor
      · rintro ⟨h1, h2⟩
        exact ⟨List.mem_cons_of_mem x h1, h2⟩
      · rintro ⟨h1, h2⟩
        rcases List.mem_cons.1 h1 with rfl | h1
        · exact absurd hx h2
        · exact ⟨h1, h2⟩
    · rw [if_neg hx]
      simp only [List.mem_cons, ih (x :: seen)]
      constructor
      · rintro (rfl | ⟨h1, h2⟩)
        · exact ⟨Or.inl rfl, hx⟩
        · exact ⟨Or.inr h1, fun hs => h2 (Or.inr hs)⟩
      · rintro ⟨rfl | h1, h2⟩
        · exact Or.inl rfl
        · by_cases hax : a = x
          · exact Or.inl hax
          · refine Or.inr ⟨h1, ?_⟩
            rintro (rfl | hs)
            · exact hax rfl
            · exact h2 hs

theorem mem_dedupFirst {α : Type} [DecidableEq α] (a : α) (l : List α) :
    a ∈ dedupFirst l ↔ a ∈ l := by
  rw [dedupFirst, mem_dedupFirstAux]
  simp

theorem dedupFirstAux_sublist {α : Type} [DecidableEq α] :
    ∀ (l seen : List α), (dedupFirstAux l seen).Sublist l := by
  intro l
  induction l with
  | nil => intro seen; simp [dedupFirstAux]
  | cons x xs ih =>
    intro seen
    rw [dedupFirstAux]
    by_cases hx : x ∈ seen
    · rw [if_pos hx]
      exact (ih seen).trans (List.sublist_cons_self x xs)
    · rw [if_neg hx]
      exact List.Sublist.cons₂ x (ih (x :: seen))

theorem dedupFirst_sublist {α : Type} [DecidableEq α] (l : List α) :
    (dedupFirst l).Sublist l :=
  dedupFirstAux_sublist l []

theorem nodup_dedupFirstAux {α : Type} [DecidableEq α] :
    ∀ (l seen : List α), (dedupFirstAux l seen).Nodup := by
  intro l
  induction l with
  | nil => intro seen; simp [dedupFirstAux]
  | cons x xs ih =>
    intro seen
    rw [dedupFirstAux]
    by_cases hx : x ∈ seen
    · rw [if_pos hx]
      exact ih seen
    · rw [if_neg hx]
      refine List.nodup_cons.2 ⟨?_, ih (x :: seen)⟩
      intro hmem
      have := (mem_dedupFirstAux x xs (x :: seen)).1 hmem
      exact this.2 (List.mem_cons_self x seen)

theorem nodup_dedupFirst {α : Type} [DecidableEq α] (l : List α) :
    (dedupFirst l).Nodup :=
  nodup_dedupFirstAux l []

theorem toFinset_dedupFirst {α : Type} [DecidableEq α] (l : List α) :
    (dedupFirst l).toFinset = l.toFinset := by
  ext a
  simp [List.mem_toFinset, mem_dedupFirst]

theorem length_dedupFirst {α : Type} [DecidableEq α] (l : List α) :
    (dedupFirst l).length = l.toFinset.card := by
  rw [← toFinset_dedupFirst, List.toFinset_card_of_nodup (nodup_dedupFirst l)]

/-! ### Numeric coercion (`pd.to_numeric(..., errors="coerce")`) -/

/-- Numeric value of a run of decimal digit characters, most significant
first. -/
def digitsVal (cs : List Char) : ℕ :=
  cs.foldl (fun a c => 10 * a + (c.toNat - 48)) 0

/-- Parse an unsigned decimal numeral, with an optional fractional part, into
a rational.  Returns `none` when the characters do not form a numeral. -/
def parseUnsigned (cs : List Char) : Option ℚ :=
  let ip := cs.takeWhile Char.isDigit
  let rest := cs.dropWhile Char.isDigit
  match rest with
  | [] => if ip.isEmpty then none else some (digitsVal ip : ℚ)
  | '.' :: fs =>
    if fs.all Char.isDigit && !(ip.isEmpty && fs.isEmpty) then
      some ((digitsVal ip : ℚ) + (digitsVal fs : ℚ) / (10 : ℚ) ^ fs.length)
    else none
  | _ => none

/-- Model of `pd.to_numeric(..., errors="coerce")` applied to one price
string (`dashboard.py` lines 138 and 156): an optionally signed decimal
numeral is coerced to its numeric value, any other string becomes a missing
value (pandas `NaN`, modelled as `none`). -/
def to_numeric (s : String) : Option ℚ :=
  match s.data with
  | '-' :: cs => (parseUnsigned cs).map (fun q => -q)
  | '+' :: cs => parseUnsigned cs
  | cs => parseUnsigned cs

/-! ### Data model -/

/-- One per-period entry of one keyword group of the trend API body. -/
structure TrendEntry where
  period : String
  ratio : ℚ
deriving DecidableEq, Repr

/-- One keyword group of the trend API body (`title` plus its `data` list). -/
structure TrendGroup where
  title : String
  data : List TrendEntry
deriving DecidableEq, Repr

/-- Parsed JSON body of a successful trend API response (its `results`
list). -/
structure TrendBody where
  results : List TrendGroup
deriving DecidableEq, Repr

/-- One flat record appended by the normalizing loop of
`fetch_shopping_trend` (lines 60-67). -/
structure TrendRecord where
  period : String
  ratio : ℚ
  keyword : String
deriving DecidableEq, Repr

/-- An HTTP response to the trend request: a status code and, when the
payload is parseable JSON of the expected shape, its parsed body.  `none`
models an unparseable payload, on which `response.json()` raises. -/
structure TrendResponse where
  status : ℕ
  body : Option TrendBody
deriving DecidableEq, Repr

/-- An HTTP response to a search request (`blog` or `shop`), `α` being the
item type; `body = none` models a payload on which `response.json()["items"]`
raises. -/
structure SearchResponse (α : Type) where
  status : ℕ
  body : Option (List α)
deriving DecidableEq, Repr

/-- A Python exception escaping the pipeline: a JSON decoding error from
`response.json()`, or the `ValueError` raised by
`TfidfVectorizer.fit_transform` on an empty vocabulary. -/
inductive PyError where
  | jsonDecodeError
  | emptyVocabulary
deriving DecidableEq, Repr

/-! ### API client (`fetch_shopping_trend`, `fetch_search_results`) -/

/-- The normalizing loop of `fetch_shopping_trend` (lines 59-67): one flat
record per (group, per-period entry), keyword column set to the group
title. -/
def flattenTrend (b : TrendBody) : List TrendRecord :=
  (b.results.map (fun g =>
    g.data.map (fun e =>
      ({ period := e.period, ratio := e.ratio, keyword := g.title } : TrendRecord)))).flatten

/-- `fetch_shopping_trend` (lines 56-69), as a function of the HTTP response:
on status 200 it parses the body (raising on unparseable JSON) and flattens
it; on any other status it returns an empty record set. -/
def fetch_shopping_trend (resp : TrendResponse) : Except PyError (List TrendRecord) :=
  if resp.status = 200 then
    match resp.body with
    | some b => .ok (flattenTrend b)
    | none => .error .jsonDecodeError
  else .ok []

/-- `fetch_search_results` (lines 71-82), as a function of the HTTP response:
on status 200 it returns the parsed item list (raising on unparseable JSON);
on any other status it returns an empty record set. -/
def fetch_search_results {α : Type} (resp : SearchResponse α) : Except PyError (List α) :=
  if resp.status = 200 then
    match resp.body with
    | some items => .ok items
    | none => .error .jsonDecodeError
  else .ok []

/-- A non-success (non-2xx) HTTP status. -/
def NonSuccess (s : ℕ) : Prop := s < 200 ∨ 300 ≤ s

/-- One blog search item; `title` / `descr` (the item description field) are
`none` when the cell is missing (pandas `NaN`), which `.fillna("")` turns
into the empty string. -/
structure BlogItem where
  title : Option String
  descr : Option String
deriving DecidableEq, Repr

/-- A pandas cell of the `lprice` column: either the original string returned
by the API, or the numeric value produced by the in-place coercion of
line 138 (`none` = `NaN`). -/
inductive Cell where
  | s : String → Cell
  | n : Option ℚ → Cell
deriving DecidableEq, Repr

/-- One shop search item, as stored in the per-keyword dataframe. -/
structure ShopRow where
  title : String
  lprice : Cell
  mallName : String
deriving DecidableEq, Repr

/-! ### Keyword parsing and per-keyword result dictionaries -/

/-- Split a character list at every comma (`str.split(",")`): the current
piece is accumulated reversed. -/
def splitCommaAux : List Char → List Char → List (List Char)
  | [], cur => [cur.reverse]
  | c :: cs, cur =>
    if c = ',' then cur.reverse :: splitCommaAux cs [] else splitCommaAux cs (c :: cur)

/-- Python `str.strip()`: drop leading and trailing whitespace. -/
def stripChars (cs : List Char) : List Char :=
  ((cs.dropWhile Char.isWhitespace).reverse.dropWhile Char.isWhitespace).reverse

/-- Line 91: split the sidebar input on commas, strip each piece, drop the
pieces that strip to the empty string. -/
def parse_keywords (input : String) : List String :=
  ((splitCommaAux input.data []).map (fun cs => String.mk (stripChars cs))).filter
    (fun s => s != "")

/-- A Python `dict` comprehension `{kw: f(kw) for kw in ks}` with a pure
value function, modelled as an association list: one entry per distinct
keyword, in first-occurrence order. -/
def dictComp {α : Type} (ks : List String) (f : String → α) : List (String × α) :=
  (dedupFirst ks).map (fun kw => (kw, f kw))

/-- `d.get(kw, dflt)` on the association-list model of a dict. -/
def dictGetD {α : Type} (d : List (String × α)) (kw : String) (dflt : α) : α :=
  match d.find? (fun p => p.1 == kw) with
  | some p => p.2
  | none => dflt

/-- One entry per keyword of a search-result dict comprehension, fetched in
order; an exception in any fetch aborts the whole comprehension. -/
def fetch_dict {α : Type} : List String → (String → SearchResponse α) →
    Except PyError (List (String × List α))
  | [], _ => .ok []
  | kw :: l, resp =>
    match fetch_search_results (resp kw) with
    | .error e => .error e
    | .ok items =>
      match fetch_dict l resp with
      | .error e => .error e
      | .ok rest => .ok ((kw, items) :: rest)

/-- Lines 102-103: one per-keyword search-result dictionary (`blog_dfs` or
`shop_dfs`): one entry per distinct keyword, in first-occurrence order;
every fetch must succeed for the comprehension to complete. -/
def build_search_dict {α : Type} (ks : List String) (resp : String → SearchResponse α) :
    Except PyError (List (String × List α)) :=
  fetch_dict (dedupFirst ks) resp

/-- The data held by one analysis run after the collection phase. -/
structure RunData where
  trend : List TrendRecord
  blogs : List (String × List BlogItem)
  shops : List (String × List ShopRow)
deriving DecidableEq, Repr

/-- The collection phase (lines 101-103): the trend fetch, then the blog
dictionary, then the shop dictionary; an uncaught exception aborts the
remainder of the run. -/
def run_collect (ks : List String) (trendResp : TrendResponse)
    (blogResp : String → SearchResponse BlogItem)
    (shopResp : String → SearchResponse ShopRow) : Except PyError RunData := do
  let trend ← fetch_shopping_trend trendResp
  let blogs ← build_search_dict ks blogResp
  let shops ← build_search_dict ks shopResp
  return ⟨trend, blogs, shops⟩

/-! ### Trend pivot (line 119) -/

/-- Line 119: `trend_df.pivot(index="period", columns="keyword",
values="ratio")`, as the cell function of the pivoted table: the ratio of
the record with the given period and keyword, `none` (an absent cell, pandas
`NaN`) when no record has that pair.  pandas `pivot` requires the
(period, keyword) pairs of the input to be unique. -/
def pivot_trend (records : List TrendRecord) (p k : String) : Option ℚ :=
  (records.find? (fun r => r.period == p && r.keyword == k)).map (fun r => r.ratio)

/-! ### EDA step (lines 129-144) -/

/-- `pd.to_numeric(..., errors="coerce")` on one `lprice` cell: a string
cell is parsed, an already-numeric cell is unchanged. -/
def coerceCell : Cell → Cell
  | .s str => .n (to_numeric str)
  | .n v => .n v

/-- In-place coercion of one row's `lprice` cell (line 138). -/
def coerceRow (r : ShopRow) : ShopRow :=
  { r with lprice := coerceCell r.lprice }

/-- One iteration of the EDA loop on the stored shop dictionary:
`shop_dfs.get(kw)` aliases the stored dataframe, so when that dataframe is
non-empty the assignment of line 138 replaces its stored `lprice` column
with the coerced one. -/
def eda_update (store : List (String × List ShopRow)) (kw : String) :
    List (String × List ShopRow) :=
  store.map (fun p => if p.1 == kw && !p.2.isEmpty then (p.1, p.2.map coerceRow) else p)

/-- The EDA loop of lines 133-144: iterates over the raw keyword list,
mutating each non-empty stored shop dataframe in place. -/
def eda_step (ks : List String) (store : List (String × List ShopRow)) :
    List (String × List ShopRow) :=
  ks.foldl eda_update store

/-- The `count` entry of `describe()` over a numeric column: the number of
non-missing values. -/
def describe_count (col : List (Option ℚ)) : ℕ := (col.filterMap id).length

/-- The mean of a numeric column: pandas skips missing values and yields
`NaN` (`none`) when no value remains. -/
def col_mean (col : List (Option ℚ)) : Option ℚ :=
  let v := col.filterMap id
  if v.isEmpty then none else some (v.sum / v.length)

/-! ### Detailed-visualization step (lines 147-190) -/

/-- The numeric value of an `lprice` cell after
`pd.to_numeric(..., errors="coerce")`. -/
def cellNum : Cell → Option ℚ
  | .s str => to_numeric str
  | .n v => v

/-- One row of the combined shop view: the copied dataframe of lines 154-156
gains a `keyword` column and a numerically coerced `lprice`. -/
structure VizRow where
  keyword : String
  lprice : Option ℚ
  mallName : String
deriving DecidableEq, Repr

/-- Lines 151-157: one per-keyword copy (keyword column added, price
coerced) per keyword whose stored shop dataframe is non-empty. -/
def all_shop_data (store : List (String × List ShopRow)) : List (List VizRow) :=
  store.filterMap (fun p =>
    if p.2.isEmpty then none
    else some (p.2.map (fun r =>
      { keyword := p.1, lprice := cellNum r.lprice, mallName := r.mallName })))

/-- Line 160: `pd.concat(all_shop_data)`. -/
def combined_shop (store : List (String × List ShopRow)) : List VizRow :=
  (all_shop_data store).flatten

/-- Group keys of a pandas `groupby` over the `keyword` column: the distinct
keywords, sorted (pandas sorts group keys). -/
def group_keys (rows : List VizRow) : List String :=
  List.insertionSort (· ≤ ·) (dedupFirst (rows.map (fun r => r.keyword)))

/-- Line 166: `combined_shop.groupby("keyword")["lprice"].mean()`, one row
per keyword. -/
def avg_price_df (rows : List VizRow) : List (String × Option ℚ) :=
  (group_keys rows).map (fun kw =>
    (kw, col_mean ((rows.filter (fun r => r.keyword == kw)).map (fun r => r.lprice))))

/-- `value_counts()` over a string column: distinct values with their
occurrence counts, sorted by descending count. -/
def value_counts (col : List String) : List (String × ℕ) :=
  List.insertionSort (fun a b => b.2 ≤ a.2)
    ((dedupFirst col).map (fun m => (m, col.count m)))

/-- Lines 144 and 186: the ten most frequent mall names. -/
def mall_top10 (rows : List VizRow) : List (String × ℕ) :=
  (value_counts (rows.map (fun r => r.mallName))).take 10

/-- The outputs of the detailed-visualization step that are computed from
the combined shop view, present only when `all_shop_data` is non-empty
(guard of line 159): the price column fed to the histogram, the mean price
per keyword, and the mall-frequency ranking. -/
structure VizOutputs where
  hist : List (Option ℚ)
  avg : List (String × Option ℚ)
  top_malls : List (String × ℕ)
deriving DecidableEq, Repr

/-- Lines 159-169 and 185-190, without the per-keyword TF-IDF loop (which is
modelled separately): skipped (`none`) when `all_shop_data` is empty. -/
def viz_step (store : List (String × List ShopRow)) : Option VizOutputs :=
  if (all_shop_data store).isEmpty then none
  else
    let rows := combined_shop store
    some { hist := rows.map (fun r => r.lprice), avg := avg_price_df rows,
           top_malls := mall_top10 rows }

/-- Smallest value of a numeric column (0 on an empty column, which pandas
never feeds to `pd.cut` with data present). -/
def col_min (v : List ℚ) : ℚ := match v with | [] => 0 | p :: ps => ps.foldl min p

/-- Largest value of a numeric column. -/
def col_max (v : List ℚ) : ℚ := match v with | [] => 0 | p :: ps => ps.foldl max p

/-- The bin index assigned by `pd.cut(x, bins=5)`: five equal-width
right-closed intervals spanning the column's min-max range, the lowest edge
extended so the minimum falls into bin 0. -/
def cut_bin (lo hi : ℚ) (q : ℚ) : ℕ :=
  let w := (hi - lo) / 5
  if q ≤ lo + w then 0
  else if q ≤ lo + 2 * w then 1
  else if q ≤ lo + 3 * w then 2
  else if q ≤ lo + 4 * w then 3
  else 4

/-- Lines 196-200: the 5-bin price crosstab (one column per keyword, one
cell per bin holding that keyword's item count); `none` when the guard of
line 196 fails and the table is skipped. -/
def price_bin_summary (store : List (String × List ShopRow)) :
    Option (List (String × List ℕ)) :=
  if (all_shop_data store).isEmpty then none
  else
    let rows := combined_shop store
    let prices := rows.filterMap (fun r => r.lprice)
    some ((group_keys rows).map (fun kw =>
      (kw, (List.range 5).map (fun b =>
        (rows.filter (fun r => r.keyword == kw)).countP
          (fun r => match r.lprice with
            | some q => cut_bin (col_min prices) (col_max prices) q == b
            | none => false)))))

/-! ### Keyword-salience extraction (TF-IDF, lines 171-183) -/

/-- A word character of the default `TfidfVectorizer` token pattern (`\w`:
letters, digits, underscore). -/
def isWordChar (c : Char) : Bool := c.isAlphanum || c == '_'

/-- Split a character list into its maximal runs of word characters (the
accumulator holds the current run, reversed). -/
def wordRunsAux : List Char → List Char → List (List Char)
  | [], cur => if cur.isEmpty then [] else [cur.reverse]
  | c :: cs, cur =>
    if isWordChar c then wordRunsAux cs (c :: cur)
    else if cur.isEmpty then wordRunsAux cs [] else cur.reverse :: wordRunsAux cs []

/-- The vectorizer's analyzer: lowercase the document, then keep every
maximal word-character run of length at least two (token pattern
`\b\w\w+\b`). -/
def tokenize (s : String) : List String :=
  ((wordRunsAux (s.data.map Char.toLower) []).filter (fun r => 2 ≤ r.length)).map
    (fun r => String.mk r)

/-- Number of occurrences of a term in one document. -/
def termCount (t : String) (doc : String) : ℕ := (tokenize doc).count t

/-- Total number of occurrences of a term across the corpus (the quantity
`max_features` ranks by). -/
def corpusCount (docs : List String) (t : String) : ℕ :=
  (docs.map (termCount t)).sum

/-- Number of documents containing the term. -/
def docFreq (docs : List String) (t : String) : ℕ :=
  (docs.filter (fun d => termCount t d != 0)).length

/-- All distinct tokens of the corpus, alphabetically sorted (the vectorizer
stores its vocabulary sorted). -/
def vocab_all (docs : List String) : List String :=
  List.insertionSort (· ≤ ·) (dedupFirst (docs.flatMap tokenize))

/-- The `max_features=20` cap of line 176: terms ranked by descending
corpus-wide count (ties alphabetically first), the top 20 kept, stored
alphabetically. -/
def vocab20 (docs : List String) : List String :=
  List.insertionSort (· ≤ ·)
    ((List.insertionSort
        (fun a b => corpusCount docs b < corpusCount docs a ∨
          (corpusCount docs b = corpusCount docs a ∧ a ≤ b))
        (vocab_all docs)).take 20)

/-- The smoothed inverse document frequency of the vectorizer
(`smooth_idf=True`): `ln((1 + n) / (1 + df)) + 1`. -/
noncomputable def idf (docs : List String) (t : String) : ℝ :=
  Real.log ((1 + docs.length) / (1 + docFreq docs t)) + 1

/-- One raw (unnormalized) entry of the TF-IDF matrix. -/
noncomputable def tfidfRaw (docs : List String) (d t : String) : ℝ :=
  (termCount t d : ℝ) * idf docs t

/-- The Euclidean norm of one document row over the capped vocabulary (the
vectorizer L2-normalizes each row; an all-zero row is left at zero, matching
division by zero in `ℝ`). -/
noncomputable def rowNorm (docs : List String) (d : String) : ℝ :=
  Real.sqrt (((vocab20 docs).map (fun t => tfidfRaw docs d t ^ 2)).sum)

/-- One entry of the L2-normalized TF-IDF matrix. -/
noncomputable def tfidfEntry (docs : List String) (d t : String) : ℝ :=
  tfidfRaw docs d t / rowNorm docs d

/-- Line 179: the weight of one vocabulary term, the column sum
`tfidf_matrix.sum(axis=0)` of the TF-IDF matrix. -/
noncomputable def tfidfWeight (docs : List String) (t : String) : ℝ :=
  (docs.map (fun d => tfidfEntry docs d t)).sum

/-- One row of `words_df` (line 180). -/
structure SalienceTerm where
  word : String
  weight : ℝ

/-- The descending-weight order of
`words_df.sort_values("weight", ascending=False)` (line 180). -/
def weightGE (a b : SalienceTerm) : Prop := b.weight ≤ a.weight

noncomputable instance : DecidableRel weightGE :=
  fun a b => inferInstanceAs (Decidable (b.weight ≤ a.weight))

instance : IsTotal SalienceTerm weightGE := ⟨fun a b => le_total b.weight a.weight⟩

instance : IsTrans SalienceTerm weightGE := ⟨fun _ _ _ h h' => le_trans h' h⟩

/-- Lines 176-180 for one document collection: `fit_transform` raises a
`ValueError` when the corpus yields no vocabulary term at all; otherwise
`words_df` holds one row per capped-vocabulary term, weighted by the column
sums and sorted by descending weight. -/
noncomputable def tfidf_extract (docs : List String) : Except PyError (List SalienceTerm) :=
  if (vocab_all docs).isEmpty then .error .emptyVocabulary
  else .ok (List.insertionSort weightGE
    ((vocab20 docs).map (fun t => { word := t, weight := tfidfWeight docs t })))

/-- The corpus of line 177: per blog item, title and description
concatenated with a separating space, missing fields filled with the empty
string by `.fillna("")`. -/
def corpus (b : List BlogItem) : List String :=
  b.map (fun i => (i.title.getD "") ++ " " ++ (i.descr.getD ""))

/-- The per-keyword salience computation as guarded in the dashboard
(line 175): a keyword with an empty blog dataframe is skipped (no terms);
otherwise lines 176-180 run on its corpus. -/
noncomputable def keyword_salience (b : List BlogItem) : Except PyError (List SalienceTerm) :=
  if b.isEmpty then .ok [] else tfidf_extract (corpus b)

/-- The TF-IDF loop of lines 172-183: it runs only inside the
`if all_shop_data:` branch of line 159, and there each keyword with a
non-empty blog dataframe gets a salience result. -/
noncomputable def salience_step (ks : List String)
    (blogs : List (String × List BlogItem)) (store : List (String × List ShopRow)) :
    List (String × Except PyError (List SalienceTerm)) :=
  if (all_shop_data store).isEmpty then []
  else ks.filterMap (fun kw =>
    let b := dictGetD blogs kw []
    if b.isEmpty then none else some (kw, tfidf_extract (corpus b)))

/-! ### Raw-data tab (lines 192-207) -/

/-- The shop dataframe displayed for one keyword by the raw-data tab
(line 205): the stored dataframe as it is after the EDA tab's in-place
coercion ran. -/
def raw_shop_view (ks : List String) (store : List (String × List ShopRow))
    (kw : String) : List ShopRow :=
  dictGetD (eda_step ks store) kw []

/-! ### Claim theorems -/

/-- C1: for every call to `fetch_shopping_trend` or `fetch_search_results`
whose HTTP response has a non-success status, the function returns an empty
record collection — no partial data and no exception surfaced to the
caller. -/
theorem c1_nonsuccess_yields_empty (r₁ : TrendResponse)
    (r₂ : SearchResponse ShopRow) (r₃ : SearchResponse BlogItem)
    (h₁ : NonSuccess r₁.status) (h₂ : NonSuccess r₂.status)
    (h₃ : NonSuccess r₃.status) :
    fetch_shopping_trend r₁ = .ok [] ∧
    fetch_search_results r₂ = .ok [] ∧
    fetch_search_results r₃ = .ok [] := by
  have n₁ : ¬ r₁.status = 200 := by rcases h₁ with h | h <;> omega
  have n₂ : ¬ r₂.status = 200 := by rcases h₂ with h | h <;> omega
  have n₃ : ¬ r₃.status = 200 := by rcases h₃ with h | h <;> omega
  refine ⟨?_, ?_, ?_⟩ <;>
    simp [fetch_shopping_trend, fetch_search_results, n₁, n₂, n₃]

/-- Witness for C1 at concrete non-success responses (404 and 500). -/
theorem c1_witness :
    NonSuccess 404 ∧ NonSuccess 500 ∧
    (fetch_shopping_trend ⟨404, none⟩ = .ok [] ∧
     fetch_search_results (⟨500, none⟩ : SearchResponse ShopRow) = .ok [] ∧
     fetch_search_results (⟨404, none⟩ : SearchResponse BlogItem) = .ok []) :=
  ⟨Or.inr (by norm_num), Or.inr (by norm_num),
    c1_nonsuccess_yields_empty ⟨404, none⟩ ⟨500, none⟩ ⟨404, none⟩
      (Or.inr (by norm_num)) (Or.inr (by norm_num)) (Or.inr (by norm_num))⟩

/-- Indexing a flattened list of lists of uniform length `P`. -/
theorem flatten_getElem?_uniform {α : Type} (P : ℕ) :
    ∀ (L : List (List α)), (∀ x ∈ L, x.length = P) → ∀ i j : ℕ, j < P →
      L.flatten[i * P + j]? = L[i]?.bind (fun x => x[j]?) := by
  intro L
  induction L with
  | nil => intro _ i j _; simp
  | cons x xs ih =>
    intro h i j hj
    have hx : x.length = P := h x (List.mem_cons_self x xs)
    cases i with
    | zero =>
      have hjx : j < x.length := by omega
      simp only [Nat.zero_mul, Nat.zero_add, List.flatten_cons]
      rw [List.getElem?_append]
      simp [hjx]
    | succ i =>
      have hlen : x.length ≤ (i + 1) * P + j := by
        rw [hx]; calc P ≤ (i + 1) * P := Nat.le_mul_of_pos_left P (Nat.succ_pos i)
          _ ≤ (i + 1) * P + j := Nat.le_add_right _ _
      simp only [List.flatten_cons]
      rw [List.getElem?_append_right hlen]
      have harith : (i + 1) * P + j - x.length = i * P + j := by
        rw [hx]; ring_nf; omega
      rw [harith, ih (fun y hy => h y (List.mem_cons_of_mem x hy)) i j hj]
      simp

/-- The length of a flattened list of lists of uniform length. -/
theorem flatten_length_uniform {α : Type} (P : ℕ) :
    ∀ (L : List (List α)), (∀ x ∈ L, x.length = P) →
      L.flatten.length = L.length * P := by
  intro L
  induction L with
  | nil => intro _; simp
  | cons x xs ih =>
    intro h
    have hx : x.length = P := h x (List.mem_cons_self x xs)
    simp only [List.flatten_cons, List.length_append, List.length_cons,
      ih (fun y hy => h y (List.mem_cons_of_mem x hy)), hx]
    ring

/-- C2: a successful trend response with `G` groups of `P` period entries
each normalizes to exactly `G × P` records; the record for entry `j` of
group `i` sits at position `i * P + j`, carries that entry's period and
ratio, and has its keyword set to the group's title — no filtering,
deduplication or reordering. -/
theorem c2_normalizer_shape (b : TrendBody) (P : ℕ)
    (hP : ∀ g ∈ b.results, g.data.length = P) :
    fetch_shopping_trend ⟨200, some b⟩ = .ok (flattenTrend b) ∧
    (flattenTrend b).length = b.results.length * P ∧
    ∀ i j : ℕ, i < b.results.length → j < P →
      (flattenTrend b)[i * P + j]? =
        (b.results[i]?).bind (fun g => (g.data[j]?).map (fun e =>
          ({ period := e.period, ratio := e.ratio, keyword := g.title } : TrendRecord))) := by
  have hlen : ∀ x ∈ b.results.map (fun g =>
      g.data.map (fun e =>
        ({ period := e.period, ratio := e.ratio, keyword := g.title } : TrendRecord))),
      x.length = P := by
    intro x hx
    obtain ⟨g, hg, rfl⟩ := List.mem_map.1 hx
    simp [hP g hg]
  refine ⟨rfl, ?_, ?_⟩
  · rw [flattenTrend, flatten_length_uniform P _ hlen, List.length_map]
  · intro i j hi hj
    rw [flattenTrend, flatten_getElem?_uniform P _ hlen i j hj, List.getElem?_map]
    cases hgi : b.results[i]? with
    | none => simp
    | some g => simp

/-- Witness for C2 on a concrete two-group, two-period body. -/
theorem c2_witness :
    (∀ g ∈ (TrendBody.mk [⟨"A", [⟨"2024-01", 10⟩, ⟨"2024-02", 20⟩]⟩,
        ⟨"B", [⟨"2024-01", 5⟩, ⟨"2024-02", 7⟩]⟩]).results, g.data.length = 2) ∧
    (fetch_shopping_trend ⟨200, some (TrendBody.mk [⟨"A", [⟨"2024-01", 10⟩, ⟨"2024-02", 20⟩]⟩,
        ⟨"B", [⟨"2024-01", 5⟩, ⟨"2024-02", 7⟩]⟩])⟩ =
      .ok (flattenTrend (TrendBody.mk [⟨"A", [⟨"2024-01", 10⟩, ⟨"2024-02", 20⟩]⟩,
        ⟨"B", [⟨"2024-01", 5⟩, ⟨"2024-02", 7⟩]⟩])) ∧
     (flattenTrend (TrendBody.mk [⟨"A", [⟨"2024-01", 10⟩, ⟨"2024-02", 20⟩]⟩,
        ⟨"B", [⟨"2024-01", 5⟩, ⟨"2024-02", 7⟩]⟩])).length =
       (TrendBody.mk [⟨"A", [⟨"2024-01", 10⟩, ⟨"2024-02", 20⟩]⟩,
        ⟨"B", [⟨"2024-01", 5⟩, ⟨"2024-02", 7⟩]⟩]).results.length * 2 ∧
     ∀ i j : ℕ, i < (TrendBody.mk [⟨"A", [⟨"2024-01", 10⟩, ⟨"2024-02", 20⟩]⟩,
        ⟨"B", [⟨"2024-01", 5⟩, ⟨"2024-02", 7⟩]⟩]).results.length → j < 2 →
      (flattenTrend (TrendBody.mk [⟨"A", [⟨"2024-01", 10⟩, ⟨"2024-02", 20⟩]⟩,
        ⟨"B", [⟨"2024-01", 5⟩, ⟨"2024-02", 7⟩]⟩]))[i * 2 + j]? =
        ((TrendBody.mk [⟨"A", [⟨"2024-01", 10⟩, ⟨"2024-02", 20⟩]⟩,
        ⟨"B", [⟨"2024-01", 5⟩, ⟨"2024-02", 7⟩]⟩]).results[i]?).bind
          (fun g => (g.data[j]?).map (fun e =>
            ({ period := e.period, ratio := e.ratio, keyword := g.title } : TrendRecord)))) :=
  ⟨by decide, c2_normalizer_shape _ 2 (by decide)⟩

/-- C3: under the uniqueness of (period, keyword) pairs that pandas `pivot`
demands, the pivoted trend table has a defined cell for exactly the pairs
present in the input — each present pair with its ratio, each absent pair
left absent (`none`), never filled with zero. -/
theorem c3_pivot_cells (records : List TrendRecord)
    (hU : (records.map (fun r => (r.period, r.keyword))).Nodup) :
    (∀ r ∈ records, pivot_trend records r.period r.keyword = some r.ratio) ∧
    (∀ p k : String, (∀ r ∈ records, ¬(r.period = p ∧ r.keyword = k)) →
      pivot_trend records p k = none) := by
  constructor
  · intro r hr
    have hsome : (records.find? (fun x => x.period == r.period && x.keyword == r.keyword)).isSome := by
      rw [List.find?_isSome]
      exact ⟨r, hr, by simp⟩
    obtain ⟨a, ha⟩ := Option.isSome_iff_exists.1 hsome
    have hpa := List.find?_some ha
    have hma := List.mem_of_find?_eq_some ha
    simp only [Bool.and_eq_true, beq_iff_eq] at hpa
    have : a = r := by
      refine List.inj_on_of_nodup_map hU hma hr ?_
      simp [hpa.1, hpa.2]
    rw [pivot_trend, ha, this]
    simp
  · intro p k h
    rw [pivot_trend, List.find?_eq_none.2, Option.map_none']
    intro x hx
    simp only [Bool.and_eq_true, beq_iff_eq]
    intro hcon
    exact h x hx hcon

/-- Witness for C3 on a concrete two-record table. -/
theorem c3_witness :
    (([⟨"2024-01", 1, "k1"⟩, ⟨"2024-02", 2, "k1"⟩] : List TrendRecord).map
        (fun r => (r.period, r.keyword))).Nodup ∧
    ((∀ r ∈ ([⟨"2024-01", 1, "k1"⟩, ⟨"2024-02", 2, "k1"⟩] : List TrendRecord),
        pivot_trend [⟨"2024-01", 1, "k1"⟩, ⟨"2024-02", 2, "k1"⟩] r.period r.keyword =
          some r.ratio) ∧
     (∀ p k : String,
        (∀ r ∈ ([⟨"2024-01", 1, "k1"⟩, ⟨"2024-02", 2, "k1"⟩] : List TrendRecord),
          ¬(r.period = p ∧ r.keyword = k)) →
        pivot_trend [⟨"2024-01", 1, "k1"⟩, ⟨"2024-02", 2, "k1"⟩] p k = none)) :=
  ⟨by decide, c3_pivot_cells _ (by decide)⟩

theorem cellNum_coerceCell (c : Cell) : cellNum (coerceCell c) = cellNum c := by
  cases c <;> rfl

theorem coerceCell_coerceCell (c : Cell) : coerceCell (coerceCell c) = coerceCell c := by
  cases c <;> rfl

theorem coerceRow_coerceRow (r : ShopRow) : coerceRow (coerceRow r) = coerceRow r := by
  simp [coerceRow, coerceCell_coerceCell]

theorem length_filterMap_eq_length_filter {α β : Type} (f : α → Option β) :
    ∀ l : List α, (l.filterMap f).length = (l.filter (fun a => (f a).isSome)).length := by
  intro l
  induction l with
  | nil => rfl
  | cons a l ih =>
    cases h : f a <;>
      simp [List.filterMap_cons, List.filter_cons, h, ih]

theorem combined_shop_cons (p : String × List ShopRow) (ps : List (String × List ShopRow)) :
    combined_shop (p :: ps) =
      (if p.2.isEmpty then [] else p.2.map (fun r =>
        ({ keyword := p.1, lprice := cellNum r.lprice, mallName := r.mallName } : VizRow))) ++
      combined_shop ps := by
  rw [combined_shop, all_shop_data, List.filterMap_cons]
  by_cases hp : p.2.isEmpty
  · rw [if_pos hp, if_pos hp]
    simp [combined_shop, all_shop_data]
  · rw [if_neg hp, if_neg hp]
    simp [combined_shop, all_shop_data]

theorem combined_shop_length (store : List (String × List ShopRow)) :
    (combined_shop store).length = (store.map (fun p => p.2.length)).sum := by
  induction store with
  | nil => rfl
  | cons p ps ih =>
    rw [combined_shop_cons, List.length_append, ih]
    by_cases hp : p.2.isEmpty
    · have h2 : p.2 = [] := List.isEmpty_iff.mp hp
      simp [hp, h2]
    · simp [hp]

/-- C4: a numeric price string coerces to its number and a non-numeric one
to a missing value; the coerced column keeps one entry per row (rows are
retained), `describe()`'s count and the mean are computed from exactly the
rows whose price coerces, and every stored row counts toward the combined
view's row count. -/
theorem c4_price_coercion :
    to_numeric "12000" = some (12000 : ℚ) ∧
    to_numeric "N/A" = none ∧
    (∀ rows : List ShopRow,
      ((rows.map coerceRow).map (fun r => cellNum r.lprice)).length = rows.length ∧
      describe_count ((rows.map coerceRow).map (fun r => cellNum r.lprice)) =
        (rows.filter (fun r => (cellNum r.lprice).isSome)).length ∧
      col_mean ((rows.map coerceRow).map (fun r => cellNum r.lprice)) =
        (if (rows.filter (fun r => (cellNum r.lprice).isSome)).length = 0 then none
         else some ((rows.filterMap (fun r => cellNum r.lprice)).sum /
           ((rows.filter (fun r => (cellNum r.lprice).isSome)).length : ℚ)))) ∧
    (∀ store : List (String × List ShopRow),
      (combined_shop store).length = (store.map (fun p => p.2.length)).sum) := by
  refine ⟨by decide, by decide, ?_, ?_⟩
  · intro rows
    have hcol : (rows.map coerceRow).map (fun r => cellNum r.lprice) =
        rows.map (fun r => cellNum r.lprice) := by
      simp only [List.map_map]
      refine List.map_congr_left (fun r _ => ?_)
      simp [Function.comp, coerceRow, cellNum_coerceCell]
    have hfm : ((rows.map (fun r => cellNum r.lprice)).filterMap id) =
        rows.filterMap (fun r => cellNum r.lprice) := by
      rw [List.filterMap_map]
      rfl
    have hlen : (rows.filterMap (fun r => cellNum r.lprice)).length =
        (rows.filter (fun r => (cellNum r.lprice).isSome)).length :=
      length_filterMap_eq_length_filter _ rows
    refine ⟨by simp [hcol], ?_, ?_⟩
    · rw [hcol, describe_count, hfm, hlen]
    · rw [hcol, col_mean]
      simp only [hfm, hlen, List.isEmpty_iff_length_eq_zero]
  · exact combined_shop_length

/-- C6: when every keyword's shop result set is empty, the combined shop
view is empty and the dependent aggregation steps (histogram, mean price,
mall top-10, and the 5-bin crosstab) are all skipped without error. -/
theorem c6_all_empty_skips (store : List (String × List ShopRow))
    (h : ∀ p ∈ store, p.2 = []) :
    all_shop_data store = [] ∧ combined_shop store = [] ∧
    viz_step store = none ∧ price_bin_summary store = none := by
  have ha : all_shop_data store = [] := by
    rw [all_shop_data, List.filterMap_eq_nil_iff]
    intro p hp
    simp [h p hp]
  refine ⟨ha, ?_, ?_, ?_⟩
  · rw [combined_shop, ha]; rfl
  · rw [viz_step, if_pos (by simp [ha])]
  · rw [price_bin_summary, if_pos (by simp [ha])]

/-- Witness for C6 on a store with one keyword and no shop rows. -/
theorem c6_witness :
    (∀ p ∈ ([("vitaminA", [])] : List (String × List ShopRow)), p.2 = []) ∧
    (all_shop_data [("vitaminA", [])] = [] ∧ combined_shop [("vitaminA", [])] = [] ∧
     viz_step [("vitaminA", [])] = none ∧ price_bin_summary [("vitaminA", [])] = none) :=
  ⟨by decide, c6_all_empty_skips _ (by decide)⟩

/-- C7 counterexample: a trend response with a success status and an
unparseable body makes `fetch_shopping_trend` raise (a `json` decode error
escapes it), and the whole collection phase of the run aborts with that
error — the caller does not observe an empty result, and the remaining
search calls produce nothing. -/
theorem c7_counterexample :
    fetch_shopping_trend ⟨200, none⟩ = .error .jsonDecodeError ∧
    run_collect ["vitaminA"] ⟨200, none⟩ (fun _ => ⟨200, some []⟩)
      (fun _ => ⟨200, some []⟩) = .error .jsonDecodeError := by
  constructor
  · rfl
  · rfl

/-- C7 amended: on a success-status response whose body is unparseable JSON,
the fetch functions raise a decode error instead of returning an empty
result, and for the trend call that error aborts the entire collection
phase (the remaining keywords and endpoints are not attempted). -/
theorem c7_malformed_json_raises (ks : List String) (tr : TrendResponse)
    (br : String → SearchResponse BlogItem) (sr : String → SearchResponse ShopRow)
    (r₂ : SearchResponse ShopRow)
    (hs : tr.status = 200) (hb : tr.body = none)
    (hs₂ : r₂.status = 200) (hb₂ : r₂.body = none) :
    fetch_shopping_trend tr = .error .jsonDecodeError ∧
    fetch_search_results r₂ = .error .jsonDecodeError ∧
    run_collect ks tr br sr = .error .jsonDecodeError := by
  have h₁ : fetch_shopping_trend tr = .error .jsonDecodeError := by
    rw [fetch_shopping_trend, if_pos hs, hb]
  refine ⟨h₁, ?_, ?_⟩
  · rw [fetch_search_results, if_pos hs₂, hb₂]
  · rw [run_collect]
    rw [h₁]
    rfl

/-- Witness for C7 (amended) at concrete malformed responses. -/
theorem c7_witness :
    (TrendResponse.mk 200 none).status = 200 ∧
    (TrendResponse.mk 200 none).body = none ∧
    (fetch_shopping_trend ⟨200, none⟩ = .error .jsonDecodeError ∧
     fetch_search_results (⟨200, none⟩ : SearchResponse ShopRow) = .error .jsonDecodeError ∧
     run_collect ["vitaminA"] ⟨200, none⟩ (fun _ => ⟨200, some []⟩)
       (fun _ => ⟨200, some []⟩) = .error .jsonDecodeError) :=
  ⟨rfl, rfl,
    c7_malformed_json_raises ["vitaminA"] ⟨200, none⟩ (fun _ => ⟨200, some []⟩)
      (fun _ => ⟨200, some []⟩) ⟨200, none⟩ rfl rfl rfl rfl⟩

/-- C8 counterexample: with one keyword whose blog result set is non-empty
but whose shop result set is empty, the TF-IDF loop never runs (it sits
inside the `if all_shop_data:` branch), so no salience result is produced
for that keyword even though its own input is non-empty. -/
theorem c8_counterexample :
    dictGetD [("vitaminA", [BlogItem.mk (some "omega three supplement")
        (some "good for health")])] "vitaminA" [] =
      [BlogItem.mk (some "omega three supplement") (some "good for health")] ∧
    salience_step ["vitaminA"]
      [("vitaminA", [BlogItem.mk (some "omega three supplement") (some "good for health")])]
      [("vitaminA", [])] = [] := by
  constructor
  · rfl
  · rfl

/-- C8 amended: the blog salience loop runs only when the combined shop data
is non-empty; in that case it is performed for exactly the keywords whose
blog result set is non-empty. -/
theorem c8_salience_guarded_by_shop (ks : List String)
    (blogs : List (String × List BlogItem)) (store : List (String × List ShopRow))
    (hne : (all_shop_data store).isEmpty = false) :
    (∀ kw ∈ ks, (dictGetD blogs kw []).isEmpty = false →
      (kw, tfidf_extract (corpus (dictGetD blogs kw []))) ∈ salience_step ks blogs store) ∧
    (∀ q ∈ salience_step ks blogs store,
      q.1 ∈ ks ∧ (dictGetD blogs q.1 []).isEmpty = false) := by
  have hs : salience_step ks blogs store = ks.filterMap (fun kw =>
      let b := dictGetD blogs kw []
      if b.isEmpty then none else some (kw, tfidf_extract (corpus b))) := by
    rw [salience_step, if_neg (by simp [hne])]
  constructor
  · intro kw hkw hb
    rw [hs]
    exact List.mem_filterMap.2 ⟨kw, hkw, by simp [hb]⟩
  · intro q hq
    rw [hs] at hq
    obtain ⟨a, ha, hfa⟩ := List.mem_filterMap.1 hq
    by_cases hb : (dictGetD blogs a []).isEmpty
    · simp [hb] at hfa
    · simp only [hb, if_neg, Bool.not_eq_true, if_false, Option.some.injEq] at hfa
      rw [← hfa]
      exact ⟨ha, by simpa using hb⟩

/-- Witness for C8 (amended) on a store with one non-empty shop dataframe
and one non-empty blog dataframe. -/
theorem c8_witness :
    (all_shop_data [("vitaminA",
        [ShopRow.mk "Vitamin A 1000" (Cell.s "12000") "WellMall"])]).isEmpty = false ∧
    ((∀ kw ∈ ["vitaminA"],
        (dictGetD [("vitaminA", [BlogItem.mk (some "omega three supplement")
            (some "good for health")])] kw []).isEmpty = false →
        (kw, tfidf_extract (corpus (dictGetD [("vitaminA",
            [BlogItem.mk (some "omega three supplement") (some "good for health")])] kw []))) ∈
          salience_step ["vitaminA"]
            [("vitaminA", [BlogItem.mk (some "omega three supplement") (some "good for health")])]
            [("vitaminA", [ShopRow.mk "Vitamin A 1000" (Cell.s "12000") "WellMall"])]) ∧
     (∀ q ∈ salience_step ["vitaminA"]
          [("vitaminA", [BlogItem.mk (some "omega three supplement") (some "good for health")])]
          [("vitaminA", [ShopRow.mk "Vitamin A 1000" (Cell.s "12000") "WellMall"])],
        q.1 ∈ ["vitaminA"] ∧
        (dictGetD [("vitaminA", [BlogItem.mk (some "omega three supplement")
            (some "good for health")])] q.1 []).isEmpty = false)) :=
  ⟨by decide,
    c8_salience_guarded_by_shop ["vitaminA"]
      [("vitaminA", [BlogItem.mk (some "omega three supplement") (some "good for health")])]
      [("vitaminA", [ShopRow.mk "Vitamin A 1000" (Cell.s "12000") "WellMall"])] (by decide)⟩

theorem fetch_dict_keys {α : Type} (resp : String → SearchResponse α) :
    ∀ (l : List String) (d : List (String × List α)),
      fetch_dict l resp = .ok d → d.map Prod.fst = l := by
  intro l
  induction l with
  | nil =>
    intro d h
    rw [fetch_dict] at h
    cases h
    rfl
  | cons kw l ih =>
    intro d h
    rw [fetch_dict] at h
    cases hf : fetch_search_results (resp kw) with
    | error e => rw [hf] at h; cases h
    | ok items =>
      rw [hf] at h
      cases hr : fetch_dict l resp with
      | error e => rw [hr] at h; cases h
      | ok rest =>
        rw [hr] at h
        cases h
        simp [ih rest hr]

/-- C9: for every user input string, the blog and shop result dictionaries
have the same key list; it is exactly the input split on commas, trimmed,
with empties dropped and duplicates removed keeping first-occurrence order —
so the number of keys is the number of distinct parsed keywords, every key
is a parsed keyword and vice versa, and key order follows input order. -/
theorem c9_result_dict_keys (input : String)
    (br : String → SearchResponse BlogItem) (sr : String → SearchResponse ShopRow)
    (db : List (String × List BlogItem)) (ds : List (String × List ShopRow))
    (hb : build_search_dict (parse_keywords input) br = .ok db)
    (hs : build_search_dict (parse_keywords input) sr = .ok ds) :
    db.map Prod.fst = ds.map Prod.fst ∧
    (db.map Prod.fst).Nodup ∧
    (db.map Prod.fst).length = (parse_keywords input).toFinset.card ∧
    (∀ k, k ∈ db.map Prod.fst ↔ k ∈ parse_keywords input) ∧
    (db.map Prod.fst).Sublist (parse_keywords input) := by
  have h1 : db.map Prod.fst = dedupFirst (parse_keywords input) :=
    fetch_dict_keys br _ db hb
  have h2 : ds.map Prod.fst = dedupFirst (parse_keywords input) :=
    fetch_dict_keys sr _ ds hs
  rw [h1, h2]
  exact ⟨rfl, nodup_dedupFirst _, length_dedupFirst _,
    fun k => mem_dedupFirst k _, dedupFirst_sublist _⟩

/-- Witness for C9 on the input `"a, b , a,, c"` (duplicate and empty
pieces), with empty successful search responses. -/
theorem c9_witness :
    build_search_dict (parse_keywords "a, b , a,, c")
      (fun _ => (⟨200, some []⟩ : SearchResponse BlogItem)) =
        .ok [("a", []), ("b", []), ("c", [])] ∧
    build_search_dict (parse_keywords "a, b , a,, c")
      (fun _ => (⟨200, some []⟩ : SearchResponse ShopRow)) =
        .ok [("a", []), ("b", []), ("c", [])] ∧
    (([("a", ([] : List BlogItem)), ("b", []), ("c", [])].map Prod.fst) =
       ([("a", ([] : List ShopRow)), ("b", []), ("c", [])].map Prod.fst) ∧
     (([("a", ([] : List BlogItem)), ("b", []), ("c", [])].map Prod.fst)).Nodup ∧
     (([("a", ([] : List BlogItem)), ("b", []), ("c", [])].map Prod.fst)).length =
       (parse_keywords "a, b , a,, c").toFinset.card ∧
     (∀ k, k ∈ ([("a", ([] : List BlogItem)), ("b", []), ("c", [])].map Prod.fst) ↔
        k ∈ parse_keywords "a, b , a,, c") ∧
     (([("a", ([] : List BlogItem)), ("b", []), ("c", [])].map Prod.fst)).Sublist
       (parse_keywords "a, b , a,, c")) :=
  ⟨rfl, rfl,
    c9_result_dict_keys "a, b , a,, c"
      (fun _ => (⟨200, some []⟩ : SearchResponse BlogItem))
      (fun _ => (⟨200, some []⟩ : SearchResponse ShopRow))
      [("a", []), ("b", []), ("c", [])] [("a", []), ("b", []), ("c", [])]
      rfl rfl⟩

theorem map_coerceRow_idem (l : List ShopRow) :
    (l.map coerceRow).map coerceRow = l.map coerceRow := by
  rw [List.map_map]
  exact List.map_congr_left (fun r _ => coerceRow_coerceRow r)

theorem eda_step_eq_map (ks : List String) :
    ∀ store : List (String × List ShopRow),
      eda_step ks store = store.map (fun p =>
        if p.1 ∈ ks ∧ p.2 ≠ [] then (p.1, p.2.map coerceRow) else p) := by
  induction ks with
  | nil =>
    intro store
    simp [eda_step]
  | cons kw ks ih =>
    intro store
    have h0 : eda_step (kw :: ks) store = eda_step ks (eda_update store kw) := rfl
    rw [h0, ih, eda_update, List.map_map]
    refine List.map_congr_left (fun p _ => ?_)
    simp only [Function.comp]
    by_cases h2 : p.2 = []
    · have h2' : p.2.isEmpty = true := by rw [h2]; rfl
      simp [h2', h2]
    · have h2' : p.2.isEmpty = false := by
        cases hp : p.2 with
        | nil => exact absurd hp h2
        | cons a l => rfl
      by_cases h1 : p.1 = kw
      · by_cases hk : p.1 ∈ ks <;>
          simp [h1, h2, h2', hk, map_coerceRow_idem, coerceRow_coerceRow]
      · have hbeq : (p.1 == kw) = false := by simp [h1]
        simp [hbeq, h2, h1, List.mem_cons]

/-- C10 counterexample: the EDA statistics step's price coercion is applied
in place to the stored per-keyword shop dataframe, so after the pipeline
runs, the raw-data tab displays a record whose `lprice` is a missing numeric
value instead of the original string `"N/A"` that the API client
returned. -/
theorem c10_counterexample :
    eda_step ["vitaminA"]
      [("vitaminA", [ShopRow.mk "Vitamin A 1000" (Cell.s "N/A") "WellMall"])] =
      [("vitaminA", [ShopRow.mk "Vitamin A 1000" (Cell.n none) "WellMall"])] ∧
    raw_shop_view ["vitaminA"]
      [("vitaminA", [ShopRow.mk "Vitamin A 1000" (Cell.s "N/A") "WellMall"])] "vitaminA" =
      [ShopRow.mk "Vitamin A 1000" (Cell.n none) "WellMall"] := by
  constructor
  · rfl
  · rfl

/-- C10 amended: the EDA step mutates exactly the stored shop dataframes
that are non-empty and whose keyword is iterated, replacing each row's
`lprice` by its coerced value, and the raw-data tab displays those mutated
records; entries outside the keyword list or with no rows are left
unchanged. -/
theorem c10_eda_mutation_characterized (ks : List String)
    (store : List (String × List ShopRow)) :
    eda_step ks store = store.map (fun p =>
      if p.1 ∈ ks ∧ p.2 ≠ [] then (p.1, p.2.map coerceRow) else p) ∧
    ∀ kw : String, raw_shop_view ks store kw =
      dictGetD (store.map (fun p =>
        if p.1 ∈ ks ∧ p.2 ≠ [] then (p.1, p.2.map coerceRow) else p)) kw [] := by
  refine ⟨eda_step_eq_map ks store, fun kw => ?_⟩
  rw [raw_shop_view, eda_step_eq_map]

theorem idf_nonneg (docs : List String) (t : String) : 0 ≤ idf docs t := by
  have hdf : (docFreq docs t : ℝ) ≤ (docs.length : ℝ) := by
    exact_mod_cast List.length_filter_le _ _
  have hpos : (0 : ℝ) < 1 + (docFreq docs t : ℝ) := by positivity
  have h1 : (1 : ℝ) ≤ (1 + (docs.length : ℝ)) / (1 + (docFreq docs t : ℝ)) := by
    rw [le_div_iff₀ hpos]
    linarith
  have hlog := Real.log_nonneg h1
  rw [idf]
  linarith

theorem tfidfWeight_nonneg (docs : List String) (t : String) :
    0 ≤ tfidfWeight docs t := by
  rw [tfidfWeight]
  apply List.sum_nonneg
  intro x hx
  obtain ⟨d, _, rfl⟩ := List.mem_map.1 hx
  rw [tfidfEntry]
  apply div_nonneg
  · rw [tfidfRaw]
    exact mul_nonneg (Nat.cast_nonneg _) (idf_nonneg docs t)
  · exact Real.sqrt_nonneg _

/-- C5 counterexample: a non-empty blog result whose corpus contains no
word-character token of length two or more (here punctuation only) makes
the vectorizer raise its empty-vocabulary `ValueError` instead of producing
a term list, so the salience result for that keyword is an error, not a
list of at most 20 terms. -/
theorem c5_counterexample :
    corpus [BlogItem.mk (some "!?") (some "!")] = ["!? !"] ∧
    keyword_salience [BlogItem.mk (some "!?") (some "!")] =
      .error .emptyVocabulary := by
  constructor
  · rfl
  · rfl

/-- C5 amended: the corpus is title and description joined by one space
(missing fields as empty strings); an empty blog collection yields an empty
term list; when the corpus yields no vocabulary term the extraction raises
instead of returning a list; and every term list actually returned has at
most 20 terms, is sorted by descending weight, and gives each term the
non-negative sum of its TF-IDF scores over all documents. -/
theorem c5_salience_shape (b : List BlogItem) :
    corpus b = b.map (fun i => (i.title.getD "") ++ " " ++ (i.descr.getD "")) ∧
    (b.isEmpty = true → keyword_salience b = .ok []) ∧
    (b.isEmpty = false → (vocab_all (corpus b)).isEmpty = true →
      keyword_salience b = .error .emptyVocabulary) ∧
    (∀ ts, keyword_salience b = .ok ts →
      ts.length ≤ 20 ∧ List.Sorted weightGE ts ∧
      ∀ t ∈ ts, 0 ≤ t.weight ∧ t.weight = tfidfWeight (corpus b) t.word) := by
  refine ⟨rfl, ?_, ?_, ?_⟩
  · intro h
    rw [keyword_salience, if_pos h]
  · intro h1 h2
    rw [keyword_salience, if_neg (by simp [h1]), tfidf_extract, if_pos h2]
  · intro ts hts
    rw [keyword_salience] at hts
    by_cases hb : b.isEmpty = true
    · rw [if_pos hb] at hts
      injection hts with h
      subst h
      exact ⟨by simp, List.sorted_nil, by simp⟩
    · rw [if_neg hb, tfidf_extract] at hts
      by_cases hv : (vocab_all (corpus b)).isEmpty = true
      · rw [if_pos hv] at hts
        simp at hts
      · rw [if_neg hv] at hts
        injection hts with h
        subst h
        refine ⟨?_, List.sorted_insertionSort weightGE _, ?_⟩
        · rw [(List.perm_insertionSort weightGE _).length_eq, List.length_map, vocab20,
            List.length_insertionSort]
          exact List.length_take_le _ _
        · intro t ht
          rw [List.mem_insertionSort] at ht
          obtain ⟨v, hv', rfl⟩ := List.mem_map.1 ht
          exact ⟨tfidfWeight_nonneg _ _, rfl⟩
